import Mathlib

/-!
Verification of the step-based deployment plan engine excerpted in
`sunbeam/commands/microceph.py` and `sunbeam/provider/maas.py`.

The Python code is shallowly embedded: pure functions become Lean
functions; calls into external collaborators (the Juju helper, the
clusterd client, the persisted question store) are modelled by passing
the collaborator's outcome in as an explicit argument; a raised Python
exception that escapes a function is modelled by `Except`.
-/

set_option autoImplicit false

namespace Sunbeam

/-- Enumeration `ResultType` from `sunbeam.jobs.common`: outcome vocabulary
of a step attempt. -/
inductive ResultType where
  | COMPLETED
  | FAILED
  | SKIPPED
  deriving DecidableEq, Repr

/-- Structure `Result` from `sunbeam.jobs.common`: a `result_type` plus an optional
human-readable `message` (`None` when not supplied). -/
structure Result where
  result_type : ResultType
  message : Option String := none
  deriving DecidableEq, Repr

/-- Function `ceph_replica_scale` from `sunbeam/commands/microceph.py` lines 78-79:
`return min(storage_nodes, 3)`. -/
def ceph_replica_scale (storage_nodes : Nat) : Nat :=
  min storage_nodes 3

/-- Python `",".join(l)`: concatenate the strings of `l` separated by
commas. -/
def joinComma : List String → String
  | [] => ""
  | [d] => d
  | d :: rest => d ++ "," ++ joinComma rest

/-- Python `pat in s` on strings: `pat` occurs as a contiguous substring
of `s`. -/
def strContains (s pat : String) : Bool :=
  (s.data.tails).any (fun t => pat.data.isPrefixOf t)

/-- Character-level worker for Python `s.split(",")`: splits a character
list into the groups between commas. Always returns at least one group. -/
def splitCommaChars : List Char → List (List Char)
  | [] => [[]]
  | c :: rest =>
    if c = ',' then [] :: splitCommaChars rest
    else
      match splitCommaChars rest with
      | [] => [[c]]
      | g :: gs => (c :: g) :: gs

/-- Python `s.split(",")`: e.g. `"a,b"` gives `["a", "b"]`, `""` gives
`[""]`, `","` gives `["", ""]`. Equivalent to `String.splitOn s ","`, but
defined by structural recursion so that concrete instances evaluate. -/
def splitComma (s : String) : List String :=
  (splitCommaChars s.data).map (fun cs => String.mk cs)

/-- The pending-disk set computed inside `ConfigureMicrocephOSDStep.is_skip`
(microceph.py lines 366-367): `set(self.disks.split(",")).difference(set(self.osd_disks))`.
Python set iteration order is unspecified; the model fixes the
first-occurrence order, and every property proved below is invariant
under reordering (only membership and emptiness are used). -/
def disks_to_add (disks : String) (osd_disks : List String) : List String :=
  ((splitComma disks).filter (fun d => !(osd_disks.contains d))).dedup

/-- Method `ConfigureMicrocephOSDStep.is_skip` (microceph.py lines 353-373).
`disks` is `self.disks` (set by `prompt`), `osd_disks` is `self.osd_disks`
(set by `get_all_disks` during `prompt`). Returns the `Result` together
with the reassigned `self.disks` (line 368 mutates it before the second
emptiness test). -/
def ConfigureMicrocephOSDStep.is_skip (disks : String) (osd_disks : List String) :
    Result × String :=
  if disks = "" then
    (Result.mk ResultType.SKIPPED none, disks)
  else
    let disks2 := joinComma (disks_to_add disks osd_disks)
    if disks2 = "" then
      (Result.mk ResultType.SKIPPED none, disks2)
    else
      (Result.mk ResultType.COMPLETED none, disks2)

/-- One entry of the structured per-item result list carried by an
`ActionFailedException` payload (microceph.py lines 403-409): a dict with
optional `status`, `message` and `spec` fields (`dict.get` yields `None`
for a missing field). -/
structure ActionItem where
  status : Option String
  message : Option String
  spec : Option String
  deriving DecidableEq, Repr

/-- The loop over parsed action results in `ConfigureMicrocephOSDStep.run`
(microceph.py lines 405-413), threading the `failed` flag. An item with
`status == "failure"` whose `message` is `None` makes the Python
membership test `"entry already exists" in result.get("message")` raise a
`TypeError`, which the surrounding `except Exception` catches; that path
is `Except.error ()`. -/
def scanActionItems : List ActionItem → Bool → Except Unit Bool
  | [], failed => Except.ok failed
  | item :: rest, failed =>
    if item.status = some "failure" then
      match item.message with
      | none => Except.error ()
      | some m =>
        if strContains m "entry already exists" then
          scanActionItems rest failed
        else
          scanActionItems rest true
    else
      scanActionItems rest failed

/-- Outcome of the collaborator calls made by
`ConfigureMicrocephOSDStep.run` (microceph.py lines 379-394):
`get_unit_from_machine` followed by `run_action(..., "add-osd", ...)`.
`actionFailed` carries `str(e)` together with the outcome of the two
`ast.literal_eval` parses of that string (lines 403-404): `none` when
parsing raises, otherwise the structured item list. -/
inductive RunActionOutcome where
  | ok
  | unitNotFound (emsg : String)
  | actionFailed (emsg : String) (payload : Option (List ActionItem))
  deriving DecidableEq, Repr

/-- Method `ConfigureMicrocephOSDStep.run` (microceph.py lines 375-421).
`disks` is `self.disks`; the collaborator outcome is passed explicitly. -/
def ConfigureMicrocephOSDStep.run (disks : String) (outcome : RunActionOutcome) : Result :=
  match outcome with
  | RunActionOutcome.ok => Result.mk ResultType.COMPLETED none
  | RunActionOutcome.unitNotFound emsg =>
    Result.mk ResultType.FAILED
      (some ("Microceph Adding disks " ++ disks ++ " failed: " ++ emsg))
  | RunActionOutcome.actionFailed emsg payload =>
    let message := "Microceph Adding disks " ++ disks ++ " failed: " ++ emsg
    match payload with
    | none => Result.mk ResultType.FAILED (some message)
    | some items =>
      match scanActionItems items false with
      | Except.error _ => Result.mk ResultType.FAILED (some message)
      | Except.ok failed =>
        if failed then Result.mk ResultType.FAILED (some message)
        else Result.mk ResultType.COMPLETED none

/-- Outcome of the collaborator calls made by
`ConfigureMicrocephOSDStep.get_all_disks` (microceph.py lines 273-295):
`get_node_info`, then `get_unit_from_machine`, then the `list-disks`
action. The disk dicts returned by `list-disks` always carry a `path`
key, embedded as plain strings. -/
inductive DiskLookupOutcome where
  | ok (osds unpartitioned : List String)
  | nodeNotFound (emsg : String)
  | unitNotFound (emsg : String)
  | actionFailed (emsg : String)
  deriving DecidableEq, Repr

/-- How an exception escapes a step method: deliberately raised
`click.ClickException`, or an uncaught exception propagating through. -/
inductive EscapedError where
  | clickException (msg : String)
  | uncaught (msg : String)
  deriving DecidableEq, Repr

/-- Method `ConfigureMicrocephOSDStep.get_all_disks` (microceph.py lines 273-295):
returns `(osd_disks, unpartitioned_disks)` on success; catches only
`UnitNotFoundException` and `ActionFailedException` and re-raises them as
`click.ClickException("Unable to list disks")`; a failure of
`get_node_info` is not caught and escapes unchanged. No branch produces a
`Result`. -/
def ConfigureMicrocephOSDStep.get_all_disks (outcome : DiskLookupOutcome) :
    Except EscapedError (List String × List String) :=
  match outcome with
  | DiskLookupOutcome.ok osds unpartitioned => Except.ok (osds, unpartitioned)
  | DiskLookupOutcome.nodeNotFound emsg => Except.error (EscapedError.uncaught emsg)
  | DiskLookupOutcome.unitNotFound _ =>
    Except.error (EscapedError.clickException "Unable to list disks")
  | DiskLookupOutcome.actionFailed _ =>
    Except.error (EscapedError.clickException "Unable to list disks")

/-- Method `SetCephMgrPoolSizeStep.is_skip` (microceph.py lines 437-447):
COMPLETED when `list_nodes_by_role("storage")` returned a non-empty list,
SKIPPED otherwise. `storage_nodes` is the list returned by the client. -/
def SetCephMgrPoolSizeStep.is_skip (storage_nodes : List String) : Result :=
  if storage_nodes.length ≠ 0 then Result.mk ResultType.COMPLETED none
  else Result.mk ResultType.SKIPPED none

/-- Exception thrown by `get_leader_unit`: per the collaborator interface
it fails with `ApplicationNotFoundException` or `LeaderNotFoundException`;
the payload is `str(e)`. -/
inductive LeaderError where
  | applicationNotFound (emsg : String)
  | leaderNotFound (emsg : String)
  deriving DecidableEq, Repr

/-- The `str(e)` rendering of a `LeaderError`. -/
def LeaderError.emsg : LeaderError → String
  | LeaderError.applicationNotFound m => m
  | LeaderError.leaderNotFound m => m

/-- Collaborator outcomes consumed by `SetCephMgrPoolSizeStep.run`
(microceph.py lines 449-485): the leader-unit lookup and, when it
succeeds, the `set-pool-size` action. `action` is `Except` over
`ActionFailedException`'s `str(e)`; on success it carries the value of
`result.get("status")`. -/
structure SetPoolEnv where
  leader : Except LeaderError String
  action : Except String (Option String)
  deriving Repr

/-- A recorded invocation of `run_action` on a unit, with the
`set-pool-size` parameters of microceph.py lines 460-463. -/
structure ActionCall where
  unit : String
  action_name : String
  pools : String
  size : Nat
  deriving DecidableEq, Repr

/-- The fixed pool list of `SetCephMgrPoolSizeStep.run`
(microceph.py lines 452-458). -/
def mgrPools : List String :=
  [".mgr", ".rgw.root", "default.rgw.log", "default.rgw.control", "default.rgw.meta"]

/-- Method `SetCephMgrPoolSizeStep.run` (microceph.py lines 449-485).
`storage_nodes` is `self.storage_nodes` as set by `is_skip`. Returns the
`Result` together with the list of remote action invocations performed
(empty when the leader lookup raised first). The rendering of the Python
list `pools` inside the error f-string is modelled as the comma-joined
pool names. -/
def SetCephMgrPoolSizeStep.run (storage_nodes : List String) (env : SetPoolEnv) :
    Result × List ActionCall :=
  match env.leader with
  | Except.error e => (Result.mk ResultType.FAILED (some e.emsg), [])
  | Except.ok unit =>
    let call := ActionCall.mk unit "set-pool-size" (joinComma mgrPools)
      (ceph_replica_scale storage_nodes.length)
    match env.action with
    | Except.error emsg => (Result.mk ResultType.FAILED (some emsg), [call])
    | Except.ok status =>
      match status with
      | none =>
        (Result.mk ResultType.FAILED
          (some ("ERROR: Failed to update pool size for " ++ joinComma mgrPools)), [call])
      | some _ => (Result.mk ResultType.COMPLETED none, [call])

/-- A value stored under a key of `charm_microceph_config`
(microceph.py line 172 and lines 181-184). -/
inductive ConfigVal where
  | str (s : String)
  | bool (b : Bool)
  | nat (n : Nat)
  deriving DecidableEq, Repr

/-- Logical network classes used by `extra_tfvars`
(`sunbeam.jobs.deployment.Networks`). -/
inductive Networks where
  | MANAGEMENT
  | STORAGE_CLUSTER
  | STORAGE
  deriving DecidableEq, Repr

/-- Collaborator data consumed by
`DeployMicrocephApplicationStep.extra_tfvars` (microceph.py lines
113-186): the two offer URLs read from the openstack plan's terraform
output (`dict.get`, so `none` when absent), the space mapping of the
deployment, and the storage-role node list from the cluster client. -/
structure DeployMicrocephEnv where
  keystone_endpoints_offer_url : Option String
  ingress_rgw_offer_url : Option String
  space : Networks → String
  storage_nodes : List String

/-- Python truthiness of an `x = d.get(k)` value that is either a string
or `None`: `if x:` is false for `None` and for the empty string. -/
def optStrTruthy : Option String → Bool
  | none => false
  | some s => s ≠ ""

/-- The shape of the tfvars dict built by `extra_tfvars`: the constant
endpoint bindings, the `charm_microceph_config` sub-dict as an
association list in insertion order, and the two optional offer-URL
top-level keys. -/
structure MicrocephTfvars where
  endpoint_bindings : List (Option String × String)
  charm_microceph_config : List (String × ConfigVal)
  keystone_endpoints_offer_url : Option String
  ingress_rgw_offer_url : Option String

/-- Method `DeployMicrocephApplicationStep.extra_tfvars` (microceph.py lines
113-186). The `"default-pool-size"` key is inserted into
`charm_microceph_config` only under `if len(storage_nodes):` (lines
181-184); the offer-URL keys only under Python truthiness of the strings
read from terraform output (lines 175-179). -/
def DeployMicrocephApplicationStep.extra_tfvars (env : DeployMicrocephEnv) :
    MicrocephTfvars :=
  let base : List (String × ConfigVal) :=
    [("enable-rgw", ConfigVal.str "*"), ("namespace-projects", ConfigVal.bool true)]
  let charm_config :=
    if env.storage_nodes.length ≠ 0 then
      base ++ [("default-pool-size",
        ConfigVal.nat (ceph_replica_scale env.storage_nodes.length))]
    else base
  { endpoint_bindings :=
      [(none, env.space Networks.MANAGEMENT),
       (some "admin", env.space Networks.MANAGEMENT),
       (some "peers", env.space Networks.MANAGEMENT),
       (some "cluster", env.space Networks.STORAGE_CLUSTER),
       (some "public", env.space Networks.STORAGE),
       (some "ceph", env.space Networks.STORAGE),
       (some "mds", env.space Networks.STORAGE),
       (some "radosgw", env.space Networks.STORAGE)],
    charm_microceph_config := charm_config,
    keystone_endpoints_offer_url :=
      if optStrTruthy env.keystone_endpoints_offer_url then
        env.keystone_endpoints_offer_url
      else none,
    ingress_rgw_offer_url :=
      if optStrTruthy env.ingress_rgw_offer_url then
        env.ingress_rgw_offer_url
      else none }

/-- Structure `DiagnosticsResult` as consumed by the MAAS check runners
(maas.py lines 822-874): a name, a passed flag and an optional message. -/
structure DiagnosticsResult where
  name : String
  passed : Bool
  message : Option String
  deriving DecidableEq, Repr

/-- What `check.run()` returns in maas.py lines 833 and 866: either a
single `DiagnosticsResult` object or a list of them (`isinstance` test on
lines 837 and 869). -/
inductive CheckRunOutput where
  | single (r : DiagnosticsResult)
  | many (rs : List DiagnosticsResult)
  deriving DecidableEq, Repr

/-- Python truthiness of `results` in `if not results:` (maas.py lines
834 and 867): a bare `DiagnosticsResult` object is truthy; a list is
truthy iff non-empty. -/
def CheckRunOutput.truthy : CheckRunOutput → Bool
  | CheckRunOutput.single _ => true
  | CheckRunOutput.many rs => !rs.isEmpty

/-- Normalisation applied after the emptiness test (maas.py lines
837-838 and 869-870): a single result is wrapped into a one-element
list. -/
def CheckRunOutput.toList : CheckRunOutput → List DiagnosticsResult
  | CheckRunOutput.single r => [r]
  | CheckRunOutput.many rs => rs

/-- The `ValueError` message raised for an empty check
(maas.py lines 835 and 868); the `!r` quoting of the f-string is elided,
the check's name is embedded verbatim. -/
def noResultsMsg (name : String) : String :=
  name ++ " returned no results."

/-- Function `_run_maas_checks` (maas.py lines 822-849), with console printing and
debug logging elided: each check is `(name, run-output)`; an empty output
raises `ValueError` (modelled as `Except.error`), aborting the loop;
otherwise every result is appended to `check_results`. -/
def runMaasChecks : List (String × CheckRunOutput) → Except String (List DiagnosticsResult)
  | [] => Except.ok []
  | (name, out) :: rest =>
    if out.truthy then
      match runMaasChecks rest with
      | Except.ok tail => Except.ok (out.toList ++ tail)
      | Except.error e => Except.error e
    else
      Except.error (noResultsMsg name)

/-- Function `_run_maas_meta_checks` (maas.py lines 852-874): identical control
flow to `_run_maas_checks` for the emptiness error; it differs only in
printing (only `results[-1].passed` is shown per check), which is modelled
by also returning the per-check last-result flags. -/
def runMaasMetaChecks :
    List (String × CheckRunOutput) → Except String (List DiagnosticsResult × List Bool)
  | [] => Except.ok ([], [])
  | (name, out) :: rest =>
    if out.truthy then
      match runMaasMetaChecks rest with
      | Except.ok (tail, flags) =>
        Except.ok (out.toList ++ tail, (out.toList.getLast?.map (·.passed)).getD false :: flags)
      | Except.error e => Except.error e
    else
      Except.error (noResultsMsg name)

/-- The topology gate of the MAAS `deploy` command (maas.py lines
432-439): `sys.exit(1)` exactly when
`nb_control + nb_compute + nb_storage < 3`. Returns `true` when the
command aborts. -/
def deployTopologyGateAborts (nb_control nb_compute nb_storage : Nat) : Bool :=
  nb_control + nb_compute + nb_storage < 3

/-- The three step lifecycle hooks a Plan Runner can invoke. -/
inductive StepAction where
  | prompt
  | is_skip
  | run
  deriving DecidableEq, Repr

/-- A step as seen by the Plan Runner: whether it declares prompts, and
the `Result`s its `is_skip` and `run` hooks produce when invoked. -/
structure PlanStep where
  has_prompts : Bool
  is_skip_result : Result
  run_result : Result
  deriving DecidableEq, Repr

/-- Modelled from the spec: `run_plan` of `sunbeam.jobs.common` is
imported by maas.py but its source is not part of this excerpt. Per spec
section 4.2: for each step in order, invoke `prompt` when the step
declares prompts, then `is_skip`; on SKIPPED advance without running; on
FAILED abort the remaining plan; otherwise invoke `run`; on FAILED abort,
on COMPLETED advance. Returns the trace of hook invocations (step index
paired with the hook) and whether the whole plan succeeded; `start` is
the index of the first step. -/
def run_plan : List PlanStep → Nat → List (Nat × StepAction) × Bool
  | [], _ => ([], true)
  | s :: rest, i =>
    let t1 := (if s.has_prompts then [(i, StepAction.prompt)] else [])
      ++ [(i, StepAction.is_skip)]
    match s.is_skip_result.result_type with
    | ResultType.FAILED => (t1, false)
    | ResultType.SKIPPED =>
      let (t, ok) := run_plan rest (i + 1)
      (t1 ++ t, ok)
    | ResultType.COMPLETED =>
      let t2 := t1 ++ [(i, StepAction.run)]
      match s.run_result.result_type with
      | ResultType.FAILED => (t2, false)
      | _ =>
        let (t, ok) := run_plan rest (i + 1)
        (t2 ++ t, ok)

/-- A step aborts the plan when its `is_skip` returns FAILED, or its
`is_skip` returns COMPLETED and its `run` returns FAILED. -/
def PlanStep.aborts (s : PlanStep) : Bool :=
  s.is_skip_result.result_type == ResultType.FAILED ||
    (s.is_skip_result.result_type == ResultType.COMPLETED &&
      s.run_result.result_type == ResultType.FAILED)

/-- The per-node answer dict mapping the key `osd_devices` to its value, stored under
`microceph_config[node_name]` (microceph.py lines 306-309). -/
structure NodeAnswers where
  osd_devices : Option String
  deriving DecidableEq, Repr

/-- The `microceph_config` mapping from node name to its answers,
as an association list (first entry wins on lookup). -/
abbrev MicrocephConfig := List (String × NodeAnswers)

/-- The variables dict persisted under config key
`TerraformVarsMicroceph`. -/
structure MicrocephVariables where
  microceph_config : MicrocephConfig
  deriving DecidableEq, Repr

/-- The persisted answer store, keyed by config-group identifier. -/
abbrev AnswerStore := List (String × MicrocephVariables)

/-- The config key `CONFIG_DISKS_KEY = "TerraformVarsMicroceph"`
(microceph.py line 46). -/
def CONFIG_DISKS_KEY : String := "TerraformVarsMicroceph"

/-- Modelled from the spec: `questions.load_answers` of
`sunbeam.jobs.questions` is not part of this excerpt. Per spec section
4.4 it returns the persisted mapping for the config group, or an empty
mapping when the group was never written. -/
def load_answers (store : AnswerStore) (key : String) : MicrocephVariables :=
  (store.lookup key).getD (MicrocephVariables.mk [])

/-- Modelled from the spec: `questions.write_answers` of
`sunbeam.jobs.questions` is not part of this excerpt. Per spec section
4.4 it atomically replaces the persisted mapping for the config group;
modelled by prepending, with `lookup` reading the newest entry. -/
def write_answers (store : AnswerStore) (key : String) (v : MicrocephVariables) :
    AnswerStore :=
  (key, v) :: store

/-- Python `dict.setdefault` of the node name to a fresh answer dict on
`microceph_config` (microceph.py lines 307-309). -/
def setdefaultNode (cfg : MicrocephConfig) (node_name : String) : MicrocephConfig :=
  match cfg.lookup node_name with
  | some _ => cfg
  | none => cfg ++ [(node_name, NodeAnswers.mk none)]

/-- Assignment `variables["microceph_config"][node_name]["osd_devices"] = disks`
(microceph.py line 340): update the entry for `node_name`. -/
def setNodeAnswer (cfg : MicrocephConfig) (node_name : String) (v : Option String) :
    MicrocephConfig :=
  cfg.map (fun kv => if kv.1 = node_name then (kv.1, NodeAnswers.mk v) else kv)

/-- A preseed value for `osd_devices` (microceph.py lines 311-327):
after the setdefault chain it is `None`, a string, or a list of strings;
a list is normalised to a comma-separated string (lines 323-327). -/
inductive PreseedVal where
  | null
  | str (s : String)
  | list (l : List String)
  deriving DecidableEq, Repr

/-- The list-to-string normalisation of microceph.py lines 317-327. -/
def PreseedVal.normalize : PreseedVal → PreseedVal
  | PreseedVal.list l => PreseedVal.str (joinComma l)
  | v => v

/-- The preseed value handed to the question bank, as an optional
string. -/
def PreseedVal.toOption : PreseedVal → Option String
  | PreseedVal.null => none
  | PreseedVal.str s => some s
  | PreseedVal.list l => some (joinComma l)

/-- The computed default of the `osd_devices` question
(`microceph_config_questions`, microceph.py lines 262-271): the
comma-joined unpartitioned disks when there is at least one, else
`None`. -/
def osd_devices_default (unpartitioned_disks : List String) : Option String :=
  if unpartitioned_disks.length > 0 then some (joinComma unpartitioned_disks) else none

/-- Modelled from the spec: `questions.QuestionBank` resolution
(`sunbeam.jobs.questions` is not part of this excerpt). Per spec section
4.4 the final value of a question is resolved with precedence: explicit
preseed value, then previous stored answer, then interactively prompted
value, then the question's computed default; when `accept_defaults` is
set, interactive prompting is skipped entirely. `interactive` is what the
user would answer when prompted. -/
def resolveQuestion (preseed previous interactive q_default : Option String)
    (accept_defaults : Bool) : Option String :=
  match preseed with
  | some v => some v
  | none =>
    match previous with
    | some v => some v
    | none =>
      if accept_defaults then q_default
      else
        match interactive with
        | some v => some v
        | none => q_default

/-- Method `ConfigureMicrocephOSDStep.prompt` (microceph.py lines 297-343):
calls `get_all_disks` (whose failure escapes as an exception), loads the
persisted answers, applies the setdefault chain to the variables and the
preseed, resolves the `osd_devices` question through the question bank,
stores the resolved value into the variables, and writes the variables
back with `write_answers`. Returns the updated store together with the
resolved `self.disks` value. -/
def ConfigureMicrocephOSDStep.prompt (node_name : String)
    (lookup_outcome : DiskLookupOutcome) (store : AnswerStore)
    (preseed : PreseedVal) (interactive : Option String) (accept_defaults : Bool) :
    Except EscapedError (AnswerStore × Option String) :=
  match ConfigureMicrocephOSDStep.get_all_disks lookup_outcome with
  | Except.error e => Except.error e
  | Except.ok (_osd_disks, unpartitioned_disks) =>
    let vars := load_answers store CONFIG_DISKS_KEY
    let cfg := setdefaultNode vars.microceph_config node_name
    let previous := match cfg.lookup node_name with
      | some a => a.osd_devices
      | none => none
    let disks := resolveQuestion (preseed.normalize).toOption previous interactive
      (osd_devices_default unpartitioned_disks) accept_defaults
    let cfg2 := setNodeAnswer cfg node_name disks
    Except.ok
      (write_answers store CONFIG_DISKS_KEY (MicrocephVariables.mk cfg2), disks)

/-- Non-emptiness hypothesis on the exception strings a collaborator can
hand to `SetCephMgrPoolSizeStep.run`. -/
def SetPoolEnv.exceptionMessagesNonempty (env : SetPoolEnv) : Prop :=
  (∀ e, env.leader = Except.error e → e.emsg ≠ "") ∧
    (∀ m, env.action = Except.error m → m ≠ "")

theorem strLenZero (s : String) (h : s.length = 0) : s = "" := by
  cases s with
  | mk data =>
    cases data with
    | nil => rfl
    | cons a t => simp [String.length] at h

theorem appendLeftEmpty (s t : String) (h : s ++ t = "") : s = "" := by
  have h2 := congrArg String.length h
  rw [String.length_append] at h2
  have h0 : ("" : String).length = 0 := rfl
  rw [h0] at h2
  exact strLenZero s (by omega)

theorem appendCommaNeEmpty (s t : String) : s ++ "," ++ t ≠ "" := by
  intro h
  have h1 := appendLeftEmpty (s ++ ",") t h
  have h2 := congrArg String.length h1
  rw [String.length_append] at h2
  have hc : (",").length = 1 := rfl
  have h0 : ("" : String).length = 0 := rfl
  rw [hc, h0] at h2
  omega

theorem joinComma_empty_of_nodup (l : List String) (hnd : l.Nodup) :
    joinComma l = "" ↔ ∀ x ∈ l, x = "" := by
  match l with
  | [] => simp [joinComma]
  | [d] => simp [joinComma]
  | d :: e :: t =>
    constructor
    · intro h
      exact absurd h (appendCommaNeEmpty d (joinComma (e :: t)))
    · intro h
      have hd : d = "" := h d (by simp)
      have he : e = "" := h e (by simp)
      rw [List.nodup_cons] at hnd
      exact absurd (by simp [hd, he]) hnd.1

theorem mem_disks_to_add (disks : String) (osd : List String) (d : String) :
    d ∈ disks_to_add disks osd ↔ d ∈ splitComma disks ∧ d ∉ osd := by
  simp [disks_to_add, List.mem_dedup, List.mem_filter]

theorem is_skip_cases (disks : String) (osd : List String) :
    (ConfigureMicrocephOSDStep.is_skip disks osd).1.result_type = ResultType.SKIPPED
      ∨ (ConfigureMicrocephOSDStep.is_skip disks osd).1.result_type
        = ResultType.COMPLETED := by
  unfold ConfigureMicrocephOSDStep.is_skip
  split
  · exact Or.inl rfl
  · simp only []
    split
    · exact Or.inl rfl
    · exact Or.inr rfl

/-- C4 (counterexample): with selected disk string `","` and no disks yet
added as OSDs, the claim predicts COMPLETED (the string is non-empty and
its selected disks — two empty names — are not in the OSD list), but the
code returns SKIPPED: `",".split(",") == ["", ""]`, the set difference is
the singleton set of the empty string, and `",".join` of it is the empty
string, which is falsy. -/
theorem osd_is_skip_comma_counterexample :
    (ConfigureMicrocephOSDStep.is_skip "," []).1.result_type = ResultType.SKIPPED
      ∧ ¬("," = "" ∨ ∀ d ∈ splitComma ",", d ∈ ([] : List String)) := by
  constructor
  · decide
  · decide

/-- C4 (amended): `ConfigureMicrocephOSDStep.is_skip` returns SKIPPED
exactly when the selected disk string is empty, or every selected disk is
already in the unit's OSD disk list or is the empty string; otherwise it
returns COMPLETED, having reduced the pending disk set to the selected
disks not already added. -/
theorem osd_is_skip_spec (disks : String) (osd : List String) :
    ((ConfigureMicrocephOSDStep.is_skip disks osd).1.result_type = ResultType.SKIPPED
        ↔ (disks = "" ∨ ∀ d ∈ splitComma disks, d ∈ osd ∨ d = ""))
      ∧ ((ConfigureMicrocephOSDStep.is_skip disks osd).1.result_type = ResultType.SKIPPED
            ∨ (ConfigureMicrocephOSDStep.is_skip disks osd).1.result_type
              = ResultType.COMPLETED)
      ∧ (disks ≠ "" →
          (ConfigureMicrocephOSDStep.is_skip disks osd).2
            = joinComma (disks_to_add disks osd))
      ∧ (∀ d, d ∈ disks_to_add disks osd ↔ d ∈ splitComma disks ∧ d ∉ osd) := by
  have hmem := mem_disks_to_add disks osd
  have hnd : (disks_to_add disks osd).Nodup := List.nodup_dedup _
  have hempty := joinComma_empty_of_nodup (disks_to_add disks osd) hnd
  have hiff : joinComma (disks_to_add disks osd) = ""
      ↔ ∀ d ∈ splitComma disks, d ∈ osd ∨ d = "" := by
    rw [hempty]
    constructor
    · intro h d hdmem
      by_cases ho : d ∈ osd
      · exact Or.inl ho
      · exact Or.inr (h d ((hmem d).mpr ⟨hdmem, ho⟩))
    · intro h x hx
      rcases (hmem x).mp hx with ⟨hx1, hx2⟩
      rcases h x hx1 with h1 | h1
      · exact absurd h1 hx2
      · exact h1
  by_cases hd : disks = ""
  · subst hd
    refine ⟨?_, ?_, ?_, hmem⟩
    · simp [ConfigureMicrocephOSDStep.is_skip]
    · exact Or.inl (by simp [ConfigureMicrocephOSDStep.is_skip])
    · intro h; exact absurd rfl h
  · by_cases hj : joinComma (disks_to_add disks osd) = ""
    · refine ⟨?_, ?_, ?_, hmem⟩
      · simp only [ConfigureMicrocephOSDStep.is_skip, if_neg hd, if_pos hj]
        simp only [true_iff]
        exact Or.inr (hiff.mp hj)
      · exact Or.inl (by simp [ConfigureMicrocephOSDStep.is_skip, if_neg hd, if_pos hj])
      · intro _
        simp [ConfigureMicrocephOSDStep.is_skip, if_neg hd, if_pos hj, hj]
    · refine ⟨?_, ?_, ?_, hmem⟩
      · simp only [ConfigureMicrocephOSDStep.is_skip, if_neg hd, if_neg hj]
        constructor
        · intro h; exact absurd h (by decide)
        · intro h
          rcases h with h | h
          · exact absurd h hd
          · exact absurd (hiff.mpr h) hj
      · exact Or.inr (by simp [ConfigureMicrocephOSDStep.is_skip, if_neg hd, if_neg hj])
      · intro _
        simp [ConfigureMicrocephOSDStep.is_skip, if_neg hd, if_neg hj]

/-- C4 (witness): a second invocation with `/dev/sdb` already added as an
OSD yields SKIPPED; with a genuinely new disk pending, the pending string
is the reduced set. -/
theorem osd_is_skip_spec_witness :
    (ConfigureMicrocephOSDStep.is_skip "/dev/sdb" ["/dev/sdb"]).1.result_type
        = ResultType.SKIPPED
      ∧ (ConfigureMicrocephOSDStep.is_skip "/dev/sdb,/dev/sdc" ["/dev/sdb"]).2
        = joinComma (disks_to_add "/dev/sdb,/dev/sdc" ["/dev/sdb"]) :=
  ⟨(osd_is_skip_spec "/dev/sdb" ["/dev/sdb"]).1.mpr (Or.inr (by decide)),
   (osd_is_skip_spec "/dev/sdb,/dev/sdc" ["/dev/sdb"]).2.2.1 (by decide)⟩

/-- C2: `ceph_replica_scale(n)` equals `min(n, 3)` for every count `n`. -/
theorem ceph_replica_scale_eq_min : ∀ n : Nat, ceph_replica_scale n = min n 3 :=
  fun _ => rfl

/-- C10: the MAAS deploy topology gate aborts exactly when the summed
role counts are below 3; in particular three control nodes with no
compute and no storage nodes pass the gate. -/
theorem deploy_topology_gate_spec :
    (∀ c m s : Nat, deployTopologyGateAborts c m s = true ↔ c + m + s < 3)
      ∧ deployTopologyGateAborts 3 0 0 = false := by
  constructor
  · intro c m s
    simp [deployTopologyGateAborts]
  · decide

/-- C6 (counterexample): when the unit lookup fails, no FAILED `Result`
is produced anywhere — `get_all_disks` (invoked from `prompt`, not from
`is_skip`) raises a `click.ClickException`, so the collaborator failure
surfaces as an exception rather than through the Result mechanism. -/
theorem lookup_failure_counterexample :
    ConfigureMicrocephOSDStep.get_all_disks
        (DiskLookupOutcome.unitNotFound "unit microceph/0 not found")
      = Except.error (EscapedError.clickException "Unable to list disks") := rfl

/-- C6 (amended): the lookup needed to decide skipping happens in
`get_all_disks` during the prompt phase, not in `is_skip`; a failing unit
lookup or list-disks action is caught and re-raised as
`ClickException("Unable to list disks")`, a failing node lookup escapes
uncaught, and `is_skip` itself never returns FAILED — it returns only
SKIPPED or COMPLETED. -/
theorem lookup_failure_raises_click :
    (∀ m, ConfigureMicrocephOSDStep.get_all_disks (DiskLookupOutcome.unitNotFound m)
        = Except.error (EscapedError.clickException "Unable to list disks"))
      ∧ (∀ m, ConfigureMicrocephOSDStep.get_all_disks (DiskLookupOutcome.actionFailed m)
        = Except.error (EscapedError.clickException "Unable to list disks"))
      ∧ (∀ m, ConfigureMicrocephOSDStep.get_all_disks (DiskLookupOutcome.nodeNotFound m)
        = Except.error (EscapedError.uncaught m))
      ∧ (∀ disks osd, (ConfigureMicrocephOSDStep.is_skip disks osd).1.result_type
            = ResultType.SKIPPED
          ∨ (ConfigureMicrocephOSDStep.is_skip disks osd).1.result_type
            = ResultType.COMPLETED) :=
  ⟨fun _ => rfl, fun _ => rfl, fun _ => rfl,
   fun disks osd => is_skip_cases disks osd⟩

theorem scan_flag_true (items : List ActionItem) :
    scanActionItems items true = Except.error ()
      ∨ scanActionItems items true = Except.ok true := by
  induction items with
  | nil => exact Or.inr rfl
  | cons item rest ih =>
    by_cases hst : item.status = some "failure"
    · cases hm : item.message with
      | none => simp [scanActionItems, hst, hm]
      | some m =>
        by_cases hc : strContains m "entry already exists" = true
        · simpa [scanActionItems, hst, hm, hc] using ih
        · simpa [scanActionItems, hst, hm, hc] using ih
    · simpa [scanActionItems, hst] using ih

theorem scan_bad_item (items : List ActionItem) (b : Bool) (it : ActionItem)
    (hmem : it ∈ items) (hst : it.status = some "failure")
    (hbad : ∀ m, it.message = some m → strContains m "entry already exists" = false) :
    scanActionItems items b = Except.error ()
      ∨ scanActionItems items b = Except.ok true := by
  induction items generalizing b with
  | nil => exact absurd hmem (List.not_mem_nil it)
  | cons head rest ih =>
    rcases List.mem_cons.mp hmem with heq | hrest
    · subst heq
      cases hm : it.message with
      | none => simp [scanActionItems, hst, hm]
      | some m =>
        have hc := hbad m hm
        simpa [scanActionItems, hst, hm, hc] using scan_flag_true rest
    · by_cases hsthead : head.status = some "failure"
      · cases hm : head.message with
        | none => simp [scanActionItems, hsthead, hm]
        | some m =>
          by_cases hc : strContains m "entry already exists" = true
          · simpa [scanActionItems, hsthead, hm, hc] using ih b hrest
          · simpa [scanActionItems, hsthead, hm, hc] using scan_flag_true rest
      · simpa [scanActionItems, hsthead] using ih b hrest

theorem scan_all_benign (items : List ActionItem)
    (h : ∀ it ∈ items, it.status = some "failure" →
      ∃ m, it.message = some m ∧ strContains m "entry already exists" = true)
    (b : Bool) : scanActionItems items b = Except.ok b := by
  induction items generalizing b with
  | nil => rfl
  | cons head rest ih =>
    have htail : ∀ it ∈ rest, it.status = some "failure" →
        ∃ m, it.message = some m ∧ strContains m "entry already exists" = true :=
      fun it hit => h it (List.mem_cons_of_mem head hit)
    by_cases hst : head.status = some "failure"
    · rcases h head (List.mem_cons_self head rest) hst with ⟨m, hm, hcont⟩
      simpa [scanActionItems, hst, hm, hcont] using ih htail b
    · simpa [scanActionItems, hst] using ih htail b

/-- C5: handling of a structured `ActionFailedException` payload in
`ConfigureMicrocephOSDStep.run`: any item with status `"failure"` whose
message does not contain `"entry already exists"` (including a missing
message) makes the step FAILED; when every failing item's message
contains the substring, the duplicates are benign and the step is
COMPLETED; an unparseable payload is FAILED. -/
theorem add_osd_duplicate_handling (disks emsg : String) (items : List ActionItem) :
    ((∃ it ∈ items, it.status = some "failure" ∧
        ∀ m, it.message = some m → strContains m "entry already exists" = false) →
      (ConfigureMicrocephOSDStep.run disks
          (RunActionOutcome.actionFailed emsg (some items))).result_type
        = ResultType.FAILED)
    ∧ ((∀ it ∈ items, it.status = some "failure" →
          ∃ m, it.message = some m ∧ strContains m "entry already exists" = true) →
        (ConfigureMicrocephOSDStep.run disks
            (RunActionOutcome.actionFailed emsg (some items))).result_type
          = ResultType.COMPLETED)
    ∧ (ConfigureMicrocephOSDStep.run disks
          (RunActionOutcome.actionFailed emsg none)).result_type
        = ResultType.FAILED := by
  refine ⟨?_, ?_, rfl⟩
  · intro h
    rcases h with ⟨it, hmem, hst, hbad⟩
    rcases scan_bad_item items false it hmem hst hbad with hscan | hscan <;>
      simp [ConfigureMicrocephOSDStep.run, hscan]
  · intro h
    simp [ConfigureMicrocephOSDStep.run, scan_all_benign items h false]

/-- C5 (witness): a payload with one benign duplicate item and one
unrelated failing item is FAILED; a payload with only the duplicate item
is COMPLETED; an unparseable payload is FAILED. -/
theorem add_osd_duplicate_handling_witness :
    (ConfigureMicrocephOSDStep.run "/dev/sdb,/dev/sdc"
        (RunActionOutcome.actionFailed "add-osd failed" (some
          [ActionItem.mk (some "failure") (some "entry already exists") (some "/dev/sdb"),
           ActionItem.mk (some "failure") (some "device busy") (some "/dev/sdc")]))).result_type
      = ResultType.FAILED
    ∧ (ConfigureMicrocephOSDStep.run "/dev/sdb"
        (RunActionOutcome.actionFailed "add-osd failed" (some
          [ActionItem.mk (some "failure") (some "entry already exists")
            (some "/dev/sdb")]))).result_type
      = ResultType.COMPLETED
    ∧ (ConfigureMicrocephOSDStep.run "/dev/sdb"
        (RunActionOutcome.actionFailed "add-osd failed" none)).result_type
      = ResultType.FAILED :=
  ⟨(add_osd_duplicate_handling "/dev/sdb,/dev/sdc" "add-osd failed"
      [ActionItem.mk (some "failure") (some "entry already exists") (some "/dev/sdb"),
       ActionItem.mk (some "failure") (some "device busy") (some "/dev/sdc")]).1
      ⟨ActionItem.mk (some "failure") (some "device busy") (some "/dev/sdc"),
        by decide, by decide, by decide⟩,
   (add_osd_duplicate_handling "/dev/sdb" "add-osd failed"
      [ActionItem.mk (some "failure") (some "entry already exists")
        (some "/dev/sdb")]).2.1 (by decide),
   (add_osd_duplicate_handling "/dev/sdb" "add-osd failed" []).2.2⟩

theorem prefixedNeEmpty (p s : String) (hp : p ≠ "") : p ++ s ≠ "" :=
  fun h => hp (appendLeftEmpty p s h)

theorem addOsdMsgNeEmpty (disks e : String) :
    "Microceph Adding disks " ++ disks ++ " failed: " ++ e ≠ "" := by
  intro h
  have h1 := appendLeftEmpty _ _ h
  have h2 := appendLeftEmpty _ _ h1
  have h3 := appendLeftEmpty _ _ h2
  exact absurd h3 (by decide)

/-- C8 (counterexample): `SetCephMgrPoolSizeStep.run` forwards `str(e)`
verbatim as the FAILED message, so a collaborator exception whose string
is empty (e.g. `LeaderNotFoundException("")`) produces a FAILED `Result`
whose message is the empty string. -/
theorem failed_message_empty_counterexample :
    (SetCephMgrPoolSizeStep.run []
        (SetPoolEnv.mk (Except.error (LeaderError.leaderNotFound ""))
          (Except.ok (some "done")))).1
      = Result.mk ResultType.FAILED (some "") := rfl

/-- C8 (amended): every FAILED `Result` of `ConfigureMicrocephOSDStep.run`
carries a non-empty message unconditionally (its messages are prefixed by
a fixed non-empty text); every FAILED `Result` of
`SetCephMgrPoolSizeStep.run` carries a non-empty message provided the
collaborator exception strings it forwards are non-empty. COMPLETED
results carry no message. -/
theorem failed_message_nonempty (disks : String) (o : RunActionOutcome)
    (sn : List String) (env : SetPoolEnv)
    (henv : env.exceptionMessagesNonempty) :
    ((ConfigureMicrocephOSDStep.run disks o).result_type = ResultType.FAILED →
        ∃ m, (ConfigureMicrocephOSDStep.run disks o).message = some m ∧ m ≠ "")
      ∧ ((SetCephMgrPoolSizeStep.run sn env).1.result_type = ResultType.FAILED →
        ∃ m, (SetCephMgrPoolSizeStep.run sn env).1.message = some m ∧ m ≠ "") := by
  constructor
  · cases o with
    | ok => intro h; simp [ConfigureMicrocephOSDStep.run] at h
    | unitNotFound e =>
      intro _
      exact ⟨_, rfl, addOsdMsgNeEmpty disks e⟩
    | actionFailed e payload =>
      intro h
      cases payload with
      | none => exact ⟨_, rfl, addOsdMsgNeEmpty disks e⟩
      | some items =>
        cases hscan : scanActionItems items false with
        | error u =>
          refine ⟨_, ?_, addOsdMsgNeEmpty disks e⟩
          simp [ConfigureMicrocephOSDStep.run, hscan]
        | ok failed =>
          cases failed with
          | false => simp [ConfigureMicrocephOSDStep.run, hscan] at h
          | true =>
            refine ⟨_, ?_, addOsdMsgNeEmpty disks e⟩
            simp [ConfigureMicrocephOSDStep.run, hscan]
  · rcases henv with ⟨hleader, haction⟩
    cases hl : env.leader with
    | error e =>
      intro _
      refine ⟨e.emsg, ?_, hleader e hl⟩
      simp [SetCephMgrPoolSizeStep.run, hl]
    | ok u =>
      cases ha : env.action with
      | error m =>
        intro _
        refine ⟨m, ?_, haction m ha⟩
        simp [SetCephMgrPoolSizeStep.run, hl, ha]
      | ok status =>
        cases status with
        | none =>
          intro _
          refine ⟨_, ?_, prefixedNeEmpty "ERROR: Failed to update pool size for "
            (joinComma mgrPools) (by decide)⟩
          simp [SetCephMgrPoolSizeStep.run, hl, ha]
        | some st =>
          intro h
          simp [SetCephMgrPoolSizeStep.run, hl, ha] at h

/-- C8 (witness): concrete FAILED results from both steps carry non-empty
messages when the collaborator exception strings are non-empty. -/
theorem failed_message_nonempty_witness :
    (ConfigureMicrocephOSDStep.run "/dev/sdb"
        (RunActionOutcome.unitNotFound "no unit")).message ≠ some ""
      ∧ (SetCephMgrPoolSizeStep.run ["node1"]
          (SetPoolEnv.mk (Except.error (LeaderError.leaderNotFound "leader not found"))
            (Except.ok (some "done")))).1.message ≠ some "" := by
  have henv : (SetPoolEnv.mk
      (Except.error (LeaderError.leaderNotFound "leader not found"))
      (Except.ok (some "done")) : SetPoolEnv).exceptionMessagesNonempty := by
    constructor
    · intro e he
      cases he
      decide
    · intro m hm
      exact Except.noConfusion hm
  have h := failed_message_nonempty "/dev/sdb" (RunActionOutcome.unitNotFound "no unit")
    ["node1"]
    (SetPoolEnv.mk (Except.error (LeaderError.leaderNotFound "leader not found"))
      (Except.ok (some "done"))) henv
  constructor
  · rcases h.1 rfl with ⟨m, hm, hne⟩
    rw [hm]
    intro hc
    exact hne (Option.some.inj hc)
  · rcases h.2 rfl with ⟨m, hm, hne⟩
    rw [hm]
    intro hc
    exact hne (Option.some.inj hc)

/-- C3: the storage pool-size configuration applies only when at least
one storage node exists: with `n ≥ 1` storage nodes, `extra_tfvars` puts
`"default-pool-size" = min(n, 3)` into `charm_microceph_config` and
`SetCephMgrPoolSizeStep.is_skip` returns COMPLETED, with `run` invoking
`set-pool-size` with size `min(n, 3)` once the leader lookup succeeds;
with `n = 0`, the key is absent and `is_skip` returns SKIPPED. -/
theorem pool_size_policy (env : DeployMicrocephEnv) (penv : SetPoolEnv) :
    (env.storage_nodes.length ≠ 0 →
        (DeployMicrocephApplicationStep.extra_tfvars env).charm_microceph_config.lookup
            "default-pool-size"
          = some (ConfigVal.nat (min env.storage_nodes.length 3))
        ∧ (SetCephMgrPoolSizeStep.is_skip env.storage_nodes).result_type
          = ResultType.COMPLETED)
      ∧ (env.storage_nodes.length = 0 →
          (DeployMicrocephApplicationStep.extra_tfvars env).charm_microceph_config.lookup
              "default-pool-size" = none
          ∧ (SetCephMgrPoolSizeStep.is_skip env.storage_nodes).result_type
            = ResultType.SKIPPED)
      ∧ (∀ u, penv.leader = Except.ok u →
          (SetCephMgrPoolSizeStep.run env.storage_nodes penv).2
            = [ActionCall.mk u "set-pool-size" (joinComma mgrPools)
                (min env.storage_nodes.length 3)]) := by
  refine ⟨?_, ?_, ?_⟩
  · intro hn
    constructor
    · simp [DeployMicrocephApplicationStep.extra_tfvars, hn, List.lookup,
        ceph_replica_scale]
    · simp [SetCephMgrPoolSizeStep.is_skip, hn]
  · intro hn
    constructor
    · simp [DeployMicrocephApplicationStep.extra_tfvars, hn, List.lookup]
    · simp [SetCephMgrPoolSizeStep.is_skip, hn]
  · intro u hu
    cases ha : penv.action with
    | error m => simp [SetCephMgrPoolSizeStep.run, hu, ha, ceph_replica_scale]
    | ok status =>
      cases status with
      | none => simp [SetCephMgrPoolSizeStep.run, hu, ha, ceph_replica_scale]
      | some st => simp [SetCephMgrPoolSizeStep.run, hu, ha, ceph_replica_scale]

/-- C3 (witness): with two storage nodes the pool size is `min 2 3`; with
none the key is absent and the step is skipped; the run invokes exactly
one `set-pool-size` action on the leader. -/
theorem pool_size_policy_witness :
    (DeployMicrocephApplicationStep.extra_tfvars
          (DeployMicrocephEnv.mk none none (fun _ => "mgmt-space")
            ["node1", "node2"])).charm_microceph_config.lookup "default-pool-size"
        = some (ConfigVal.nat (min (List.length ["node1", "node2"]) 3))
      ∧ (SetCephMgrPoolSizeStep.is_skip ["node1", "node2"]).result_type
        = ResultType.COMPLETED
      ∧ (DeployMicrocephApplicationStep.extra_tfvars
          (DeployMicrocephEnv.mk none none (fun _ => "mgmt-space")
            [])).charm_microceph_config.lookup "default-pool-size" = none
      ∧ (SetCephMgrPoolSizeStep.is_skip ([] : List String)).result_type
        = ResultType.SKIPPED
      ∧ (SetCephMgrPoolSizeStep.run ["node1", "node2"]
          (SetPoolEnv.mk (Except.ok "microceph/0") (Except.ok (some "done")))).2
        = [ActionCall.mk "microceph/0" "set-pool-size" (joinComma mgrPools)
            (min (List.length ["node1", "node2"]) 3)] := by
  have h2 := pool_size_policy
    (DeployMicrocephEnv.mk none none (fun _ => "mgmt-space") ["node1", "node2"])
    (SetPoolEnv.mk (Except.ok "microceph/0") (Except.ok (some "done")))
  have h0 := pool_size_policy
    (DeployMicrocephEnv.mk none none (fun _ => "mgmt-space") [])
    (SetPoolEnv.mk (Except.ok "microceph/0") (Except.ok (some "done")))
  exact ⟨(h2.1 (by decide)).1, (h2.1 (by decide)).2, (h0.2.1 rfl).1, (h0.2.1 rfl).2,
    h2.2.2 "microceph/0" rfl⟩

theorem runMaasChecks_isOk (checks : List (String × CheckRunOutput)) :
    (runMaasChecks checks).isOk = true ↔ ∀ c ∈ checks, c.2.truthy = true := by
  induction checks with
  | nil => simp [runMaasChecks, Except.isOk, Except.toBool]
  | cons c rest ih =>
    rcases c with ⟨name, out⟩
    by_cases ht : out.truthy = true
    · cases hrec : runMaasChecks rest with
      | ok tail =>
        rw [hrec] at ih
        simp only [runMaasChecks, ht, if_pos rfl, hrec]
        simpa [Except.isOk, Except.toBool, ht] using ih
      | error e =>
        rw [hrec] at ih
        simp only [runMaasChecks, ht, if_pos rfl, hrec]
        simpa [Except.isOk, Except.toBool, ht] using ih
    · simp only [runMaasChecks, ht, if_neg ht]
      simp [Except.isOk, Except.toBool, ht]

theorem runMaasMetaChecks_isOk (checks : List (String × CheckRunOutput)) :
    (runMaasMetaChecks checks).isOk = true ↔ ∀ c ∈ checks, c.2.truthy = true := by
  induction checks with
  | nil => simp [runMaasMetaChecks, Except.isOk, Except.toBool]
  | cons c rest ih =>
    rcases c with ⟨name, out⟩
    by_cases ht : out.truthy = true
    · cases hrec : runMaasMetaChecks rest with
      | ok tail =>
        rw [hrec] at ih
        simp only [runMaasMetaChecks, ht, if_pos rfl, hrec]
        simpa [Except.isOk, Except.toBool, ht] using ih
      | error e =>
        rw [hrec] at ih
        simp only [runMaasMetaChecks, ht, if_pos rfl, hrec]
        simpa [Except.isOk, Except.toBool, ht] using ih
    · simp only [runMaasMetaChecks, ht, if_neg ht]
      simp [Except.isOk, Except.toBool, ht]

/-- C7: both MAAS check runners raise a `ValueError` naming the check as
soon as a check's run yields zero results (a check with at least one
result never triggers it): the run succeeds exactly when every check's
output is truthy, a leading zero-result check produces exactly the
named error, and an output is truthy exactly when it normalises to at
least one result. -/
theorem check_runner_empty_results (checks : List (String × CheckRunOutput)) :
    ((runMaasChecks checks).isOk = true ↔ ∀ c ∈ checks, c.2.truthy = true)
      ∧ ((runMaasMetaChecks checks).isOk = true ↔ ∀ c ∈ checks, c.2.truthy = true)
      ∧ (∀ name rest, runMaasChecks ((name, CheckRunOutput.many []) :: rest)
          = Except.error (noResultsMsg name))
      ∧ (∀ name rest, runMaasMetaChecks ((name, CheckRunOutput.many []) :: rest)
          = Except.error (noResultsMsg name))
      ∧ (∀ o : CheckRunOutput, o.truthy = true ↔ o.toList ≠ []) := by
  refine ⟨runMaasChecks_isOk checks, runMaasMetaChecks_isOk checks, ?_, ?_, ?_⟩
  · intro name rest
    simp [runMaasChecks, CheckRunOutput.truthy]
  · intro name rest
    simp [runMaasMetaChecks, CheckRunOutput.truthy]
  · intro o
    cases o with
    | single r => simp [CheckRunOutput.truthy, CheckRunOutput.toList]
    | many rs => cases rs <;> simp [CheckRunOutput.truthy, CheckRunOutput.toList]

/-- C7 (witness): a concrete empty check raises the error naming it; a
verbose run over a passing check and a meta run over a two-result check
both succeed. -/
theorem check_runner_empty_results_witness :
    runMaasChecks [("network-check", CheckRunOutput.many [])]
        = Except.error (noResultsMsg "network-check")
      ∧ (runMaasChecks
          [("zone-check", CheckRunOutput.single (DiagnosticsResult.mk "zones" true none))]).isOk
        = true
      ∧ (runMaasMetaChecks
          [("machine-check", CheckRunOutput.many
            [DiagnosticsResult.mk "cores" true none,
             DiagnosticsResult.mk "memory" false (some "too small")])]).isOk
        = true :=
  ⟨(check_runner_empty_results []).2.2.1 "network-check" [],
   (check_runner_empty_results
      [("zone-check", CheckRunOutput.single (DiagnosticsResult.mk "zones" true none))]).1.mpr
      (by decide),
   (check_runner_empty_results
      [("machine-check", CheckRunOutput.many
        [DiagnosticsResult.mk "cores" true none,
         DiagnosticsResult.mk "memory" false (some "too small")])]).2.1.mpr
      (by decide)⟩

theorem lookup_setNodeAnswer (cfg : MicrocephConfig) (node : String)
    (v : Option String) (a : NodeAnswers) (h : cfg.lookup node = some a) :
    (setNodeAnswer cfg node v).lookup node = some (NodeAnswers.mk v) := by
  induction cfg with
  | nil => simp [List.lookup] at h
  | cons kv rest ih =>
    rcases kv with ⟨k, b⟩
    by_cases hk : k = node
    · subst hk
      have hrw : setNodeAnswer ((k, b) :: rest) k v
          = (k, NodeAnswers.mk v) :: setNodeAnswer rest k v := by
        simp [setNodeAnswer]
      rw [hrw]
      simp [List.lookup]
    · have hne : (node == k) = false := by
        simp only [beq_eq_false_iff_ne, ne_eq]
        exact fun he => hk he.symm
      simp only [List.lookup, hne] at h
      have hrw : setNodeAnswer ((k, b) :: rest) node v
          = (k, b) :: setNodeAnswer rest node v := by
        simp [setNodeAnswer, hk]
      rw [hrw]
      simp only [List.lookup, hne]
      exact ih h

theorem lookup_append_of_none {β : Type} (l1 l2 : List (String × β)) (node : String)
    (h : l1.lookup node = none) : (l1 ++ l2).lookup node = l2.lookup node := by
  induction l1 with
  | nil => simp
  | cons kv rest ih =>
    cases hk : (node == kv.1) with
    | true => simp [List.lookup, hk] at h
    | false =>
      simp only [List.lookup, hk] at h
      simp only [List.cons_append, List.lookup, hk]
      exact ih h

theorem lookup_setdefaultNode (cfg : MicrocephConfig) (node : String) :
    ∃ a, (setdefaultNode cfg node).lookup node = some a := by
  cases h : cfg.lookup node with
  | some a =>
    refine ⟨a, ?_⟩
    simp [setdefaultNode, h]
  | none =>
    refine ⟨NodeAnswers.mk none, ?_⟩
    simp only [setdefaultNode, h]
    rw [lookup_append_of_none cfg [(node, NodeAnswers.mk none)] node h]
    simp [List.lookup]

/-- C9: whenever `ConfigureMicrocephOSDStep.prompt` returns normally, the
resolved `osd_devices` answer has been written back to the persisted
store under config group `TerraformVarsMicroceph`, keyed as
`microceph_config[node_name]["osd_devices"]` — for every preseed value,
previously stored answers, interactive input and accept-defaults flag. -/
theorem prompt_writes_back (node_name : String) (lk : DiskLookupOutcome)
    (store : AnswerStore) (preseed : PreseedVal) (interactive : Option String)
    (accept_defaults : Bool) (store' : AnswerStore) (disks : Option String)
    (h : ConfigureMicrocephOSDStep.prompt node_name lk store preseed interactive
      accept_defaults = Except.ok (store', disks)) :
    (load_answers store' CONFIG_DISKS_KEY).microceph_config.lookup node_name
      = some (NodeAnswers.mk disks) := by
  unfold ConfigureMicrocephOSDStep.prompt at h
  cases hlk : ConfigureMicrocephOSDStep.get_all_disks lk with
  | error e => rw [hlk] at h; exact Except.noConfusion h
  | ok disksPair =>
    rcases disksPair with ⟨osd_disks, unpartitioned⟩
    rw [hlk] at h
    simp only [Except.ok.injEq, Prod.mk.injEq] at h
    rcases h with ⟨hstore, hdisks⟩
    subst hstore
    subst hdisks
    simp only [load_answers, write_answers, List.lookup, beq_self_eq_true,
      Option.getD_some]
    rcases lookup_setdefaultNode
        (load_answers store CONFIG_DISKS_KEY).microceph_config node_name with ⟨a, ha⟩
    exact lookup_setNodeAnswer _ node_name _ a ha

/-- C9 (witness): with an empty store, no preseed, accept-defaults set and
one unpartitioned disk `/dev/sdb`, the prompt phase persists
`osd_devices = "/dev/sdb"` for node `node1`. -/
theorem prompt_writes_back_witness :
    (load_answers
        [("TerraformVarsMicroceph",
          MicrocephVariables.mk [("node1", NodeAnswers.mk (some "/dev/sdb"))])]
        CONFIG_DISKS_KEY).microceph_config.lookup "node1"
      = some (NodeAnswers.mk (some "/dev/sdb")) :=
  prompt_writes_back "node1" (DiskLookupOutcome.ok [] ["/dev/sdb"]) []
    PreseedVal.null none true
    [("TerraformVarsMicroceph",
      MicrocephVariables.mk [("node1", NodeAnswers.mk (some "/dev/sdb"))])]
    (some "/dev/sdb") rfl

theorem mem_head_trace (b : Bool) (i j : Nat) (a x y : StepAction)
    (h : (j, a) ∈ (if b then [(i, x)] else []) ++ [(i, y)]) : j = i := by
  rcases List.mem_append.mp h with h1 | h1
  · cases b with
    | true => simp at h1; exact h1.1
    | false => simp at h1
  · simp at h1
    exact h1.1

/-- C1: the plan runner is strictly sequential and fail-fast: if the step
at index `i` (counting from `start`) aborts — its `is_skip` or its `run`
returns FAILED — then no hook (prompt, is_skip or run) of any step at an
index greater than `start + i` ever appears in the invocation trace. -/
theorem run_plan_fail_fast (steps : List PlanStep) (start i : Nat) (s : PlanStep)
    (hs : steps.get? i = some s) (hf : s.aborts = true)
    (j : Nat) (a : StepAction) (hj : (j, a) ∈ (run_plan steps start).1) :
    j ≤ start + i := by
  induction steps generalizing start i with
  | nil => simp at hs
  | cons st rest ih =>
    cases i with
    | zero =>
      have hst : st = s := by simpa using hs
      subst hst
      cases hres : st.is_skip_result.result_type with
      | FAILED =>
        simp only [run_plan, hres] at hj
        have := (mem_head_trace st.has_prompts start j a
          StepAction.prompt StepAction.is_skip hj).le
        omega
      | SKIPPED =>
        unfold PlanStep.aborts at hf
        rw [hres] at hf
        simp at hf
      | COMPLETED =>
        have hrun : st.run_result.result_type = ResultType.FAILED := by
          unfold PlanStep.aborts at hf
          rw [hres] at hf
          simpa using hf
        simp only [run_plan, hres, hrun] at hj
        rcases List.mem_append.mp hj with h1 | h1
        · exact (mem_head_trace st.has_prompts start j a
            StepAction.prompt StepAction.is_skip h1).le
        · simp at h1
          exact h1.1.le
    | succ i2 =>
      have hs2 : rest.get? i2 = some s := by simpa using hs
      have hbound : start ≤ start + (i2 + 1) := Nat.le_add_right start (i2 + 1)
      cases hres : st.is_skip_result.result_type with
      | FAILED =>
        simp only [run_plan, hres] at hj
        exact le_trans (mem_head_trace st.has_prompts start j a
          StepAction.prompt StepAction.is_skip hj).le hbound
      | SKIPPED =>
        rcases hrp : run_plan rest (start + 1) with ⟨t, ok⟩
        simp only [run_plan, hres, hrp] at hj
        rcases List.mem_append.mp hj with h1 | h1
        · exact le_trans (mem_head_trace st.has_prompts start j a
            StepAction.prompt StepAction.is_skip h1).le hbound
        · have := ih (start + 1) i2 hs2 (by rw [hrp]; exact h1)
          omega
      | COMPLETED =>
        cases hrun : st.run_result.result_type with
        | FAILED =>
          simp only [run_plan, hres, hrun] at hj
          rcases List.mem_append.mp hj with h1 | h1
          · exact le_trans (mem_head_trace st.has_prompts start j a
              StepAction.prompt StepAction.is_skip h1).le hbound
          · simp at h1
            omega
        | COMPLETED =>
          rcases hrp : run_plan rest (start + 1) with ⟨t, ok⟩
          simp only [run_plan, hres, hrun, hrp] at hj
          rcases List.mem_append.mp hj with h1 | h1
          · rcases List.mem_append.mp h1 with h2 | h2
            · exact le_trans (mem_head_trace st.has_prompts start j a
                StepAction.prompt StepAction.is_skip h2).le hbound
            · simp at h2
              omega
          · have := ih (start + 1) i2 hs2 (by rw [hrp]; exact h1)
            omega
        | SKIPPED =>
          rcases hrp : run_plan rest (start + 1) with ⟨t, ok⟩
          simp only [run_plan, hres, hrun, hrp] at hj
          rcases List.mem_append.mp hj with h1 | h1
          · rcases List.mem_append.mp h1 with h2 | h2
            · exact le_trans (mem_head_trace st.has_prompts start j a
                StepAction.prompt StepAction.is_skip h2).le hbound
            · simp at h2
              omega
          · have := ih (start + 1) i2 hs2 (by rw [hrp]; exact h1)
            omega

/-- C1 (witness): in a three-step plan whose second step's `run` returns
FAILED, no hook of the third step (index 2) is ever invoked. -/
theorem run_plan_fail_fast_witness :
    ((2, StepAction.prompt) ∉ (run_plan
        [PlanStep.mk true (Result.mk ResultType.COMPLETED none)
            (Result.mk ResultType.COMPLETED none),
         PlanStep.mk false (Result.mk ResultType.COMPLETED none)
            (Result.mk ResultType.FAILED (some "boom")),
         PlanStep.mk true (Result.mk ResultType.COMPLETED none)
            (Result.mk ResultType.COMPLETED none)] 0).1)
      ∧ ((2, StepAction.is_skip) ∉ (run_plan
        [PlanStep.mk true (Result.mk ResultType.COMPLETED none)
            (Result.mk ResultType.COMPLETED none),
         PlanStep.mk false (Result.mk ResultType.COMPLETED none)
            (Result.mk ResultType.FAILED (some "boom")),
         PlanStep.mk true (Result.mk ResultType.COMPLETED none)
            (Result.mk ResultType.COMPLETED none)] 0).1)
      ∧ ((2, StepAction.run) ∉ (run_plan
        [PlanStep.mk true (Result.mk ResultType.COMPLETED none)
            (Result.mk ResultType.COMPLETED none),
         PlanStep.mk false (Result.mk ResultType.COMPLETED none)
            (Result.mk ResultType.FAILED (some "boom")),
         PlanStep.mk true (Result.mk ResultType.COMPLETED none)
            (Result.mk ResultType.COMPLETED none)] 0).1) := by
  refine ⟨fun h => ?_, fun h => ?_, fun h => ?_⟩ <;>
  · have hb := run_plan_fail_fast
      [PlanStep.mk true (Result.mk ResultType.COMPLETED none)
          (Result.mk ResultType.COMPLETED none),
       PlanStep.mk false (Result.mk ResultType.COMPLETED none)
          (Result.mk ResultType.FAILED (some "boom")),
       PlanStep.mk true (Result.mk ResultType.COMPLETED none)
          (Result.mk ResultType.COMPLETED none)] 0 1
      (PlanStep.mk false (Result.mk ResultType.COMPLETED none)
        (Result.mk ResultType.FAILED (some "boom")))
      rfl (by decide) 2 _ h
    omega

/-- C10 (witness): two nodes abort the gate; three control nodes with no
compute and no storage pass it. -/
theorem deploy_topology_gate_spec_witness :
    deployTopologyGateAborts 1 1 0 = true ∧ deployTopologyGateAborts 3 0 0 = false :=
  ⟨(deploy_topology_gate_spec.1 1 1 0).mpr (by decide), deploy_topology_gate_spec.2⟩

end Sunbeam
